import Mathlib

/-!
Shallow embedding of the credential-lifecycle controllers of the
Authentication repository (`src/controllers/userControllers.ts`).

The persistent store is modelled as a list of account documents; `findOne`
returns the first list element matching the query, `save` replaces the
matched document in place (or appends a new one).  Time is a `Nat` of
milliseconds; each operation receives the current instant `now` and, where
the source draws a fresh random token, an explicit `freshToken` argument.
Outbound email dispatch is modelled by a boolean `dispatchOk` flag: the
source `await sendEmail(...)` either returns or throws, and a thrown error
is forwarded to the error-handling middleware (`next(err)`).
-/

namespace Auth

/-- Token expiry horizon: source constant `TOKEN_EXPIRATION_MS = 60 * 60 * 1000` (1 hour). -/
def TOKEN_EXPIRATION_MS : Nat := 60 * 60 * 1000

/-- Session credential validity window in milliseconds: the source sets
`JWT_EXPIRATION = "1d"` on the signed token and a matching cookie
`maxAge: 24 * 60 * 60 * 1000` (1 day). -/
def JWT_EXPIRATION_MS : Nat := 24 * 60 * 60 * 1000

/-- Modelled from the spec: the Mongoose `User` model (`src/models/User.ts`,
not among the provided sources) derives a password representation before
storage and never stores plaintext (spec section 4.3: a salted one-way
derivation; comparison re-derives and compares).  For the functional claims
only injectivity of the derivation on the raw password matters, so the
derivation is modelled as an injective tagging function. -/
def hashPassword (raw : String) : String := "derived$" ++ raw

/-- An account document, after the Mongoose `User` model consumed by the
controllers: `_id` is the store's unique document id, `password` holds the
derived representation (see `hashPassword`), and the shared
`verificationToken` / `verificationTokenExpires` slot holds the pending
verification-or-reset token, both fields present or both absent. -/
structure User where
  _id : String
  name : String
  email : String
  password : String
  role : String
  isVerified : Bool
  verificationToken : Option String
  verificationTokenExpires : Option Nat
deriving DecidableEq, Repr

/-- Modelled from the spec: `user.comparePassword(raw)` of the missing
`User` model re-derives the raw password and compares it with the stored
representation (spec section 4.3). -/
def comparePassword (u : User) (raw : String) : Bool :=
  u.password == hashPassword raw

/-- The Mongo query of `verifyEmail` / `resetPassword`:
`{ verificationToken: token, verificationTokenExpires: { $gt: new Date() } }` —
the stored token equals `token` and the stored expiry instant is strictly in
the future (a document with the expiry field absent never matches `$gt`). -/
def tokenMatches (token : String) (now : Nat) (u : User) : Bool :=
  u.verificationToken == some token &&
    match u.verificationTokenExpires with
    | some e => decide (now < e)
    | none => false

/-- Helper `setVerificationToken`: store a fresh token and expiry
`Date.now() + TOKEN_EXPIRATION_MS` on the document (the source then saves it). -/
def setVerificationToken (freshToken : String) (now : Nat) (u : User) : User :=
  { u with verificationToken := some freshToken,
           verificationTokenExpires := some (now + TOKEN_EXPIRATION_MS) }

/-- The outbound message handed to the notification dispatcher: recipient,
subject, and the token embedded in the constructed link of the body. -/
structure EmailMsg where
  recipient : String
  subject : String
  linkToken : String
deriving DecidableEq, Repr

/-- Helper `sendVerificationEmail`: persist a fresh token on the document
first (via `setVerificationToken`), then build the verification email whose
link embeds `user.verificationToken`. -/
def sendVerificationEmail (freshToken : String) (now : Nat) (u : User) :
    User × EmailMsg :=
  let u2 := setVerificationToken freshToken now u
  (u2, ⟨u2.email, "Verify Your Email", (u2.verificationToken).getD ""⟩)

/-- `user.save()` for an existing document: replace the first account with
the given email, leaving the rest of the store unchanged. -/
def replaceByEmail (email : String) (f : User → User) : List User → List User
  | [] => []
  | u :: rest =>
    if u.email == email then f u :: rest else u :: replaceByEmail email f rest

/-- The shared lookup-and-consume step of `verifyEmail` / `resetPassword`:
find the first account matching the token query, apply the consuming
mutation and save it in the same persisted update; `none` when no account
matches (wrong token or expired). -/
def findAndConsume (consume : User → User) (token : String) (now : Nat) :
    List User → Option (List User)
  | [] => none
  | u :: rest =>
    if tokenMatches token now u then some (consume u :: rest)
    else (findAndConsume consume token now rest).map (fun s => u :: s)

/-- Outcome of `verifyEmail` as signalled to the caller. -/
inductive VerifyResult where
  | missingToken
  | invalidOrExpiredToken
  | verified
deriving DecidableEq, Repr

/-- The mutation `verifyEmail` applies on a token match:
`isVerified = true`, clear `verificationToken` and
`verificationTokenExpires`, then one `save`. -/
def consumeVerify (u : User) : User :=
  { u with isVerified := true,
           verificationToken := none,
           verificationTokenExpires := none }

/-- `verifyEmail`: a missing `token` query parameter is rejected before the
store is consulted; otherwise find the account whose stored token matches
and is unexpired, mark it verified and clear the token slot in one saved
update, or report `Invalid or expired verification token.`. -/
def verifyEmail (token : Option String) (now : Nat) (store : List User) :
    VerifyResult × List User :=
  match token with
  | none => (.missingToken, store)
  | some t =>
    match findAndConsume consumeVerify t now store with
    | none => (.invalidOrExpiredToken, store)
    | some store2 => (.verified, store2)

/-- Outcome of `resetPassword` as signalled to the caller. -/
inductive ResetResult where
  | missingToken
  | invalidOrExpiredToken
  | resetOk
deriving DecidableEq, Repr

/-- The mutation `resetPassword` applies on a token match: store the new
password (derived on save by the model), clear the token slot, one `save`. -/
def consumeReset (newPassword : String) (u : User) : User :=
  { u with password := hashPassword newPassword,
           verificationToken := none,
           verificationTokenExpires := none }

/-- `resetPassword`: a missing `token` query parameter is rejected before
the store is consulted; otherwise the same lookup as `verifyEmail`, and on
a match the password is replaced and the token slot cleared in one saved
update. -/
def resetPassword (token : Option String) (newPassword : String) (now : Nat)
    (store : List User) : ResetResult × List User :=
  match token with
  | none => (.missingToken, store)
  | some t =>
    match findAndConsume (consumeReset newPassword) t now store with
    | none => (.invalidOrExpiredToken, store)
    | some store2 => (.resetOk, store2)

/-- The signed session credential minted by `jwt.sign`: embedded claims
`{ userId: user._id, role: user.role }` and the fixed validity window. -/
structure Jwt where
  userId : String
  role : String
  expiresInMs : Nat
deriving DecidableEq, Repr

/-- `jwt.sign({ userId, role }, secret, { expiresIn: JWT_EXPIRATION })`. -/
def jwtSign (userId role : String) : Jwt :=
  ⟨userId, role, JWT_EXPIRATION_MS⟩

/-- Outcome of `loginUser` as signalled to the caller. -/
inductive LoginResult where
  | emailNotVerified
  | invalidCredentials
  | success (token : Jwt)
deriving DecidableEq, Repr

/-- `loginUser`: find the account by email; an existing unverified account
is rejected with `Email not verified` before the password is checked; a
missing account or a failed `comparePassword` gives the one shared
`Invalid email or password` signal; otherwise a session credential is
signed over the account's id and role. -/
def loginUser (email rawPassword : String) (store : List User) : LoginResult :=
  match store.find? (fun u => u.email == email) with
  | some u =>
    if !u.isVerified then .emailNotVerified
    else if comparePassword u rawPassword then .success (jwtSign u._id u.role)
    else .invalidCredentials
  | none => .invalidCredentials

/-- Outcome of `registerUser` as signalled to the caller; the sent/resent
outcomes carry the token embedded in the dispatched email's link. -/
inductive RegisterResult where
  | alreadyVerified
  | verificationResent (emailedToken : String)
  | verificationSent (emailedToken : String)
  | dispatchError
deriving DecidableEq, Repr

/-- `registerUser`: an existing verified account is rejected; an existing
unverified account gets a fresh token persisted (overwriting the slot) and
the verification email resent; a previously-unseen email gets a new
unverified account whose first save already carries the fresh token, then
the verification email.  A dispatch failure (`sendEmail` throwing) reaches
the caller through `next(err)` after the save has happened. -/
def registerUser (name email rawPassword role uid : String)
    (freshToken : String) (now : Nat) (dispatchOk : Bool)
    (store : List User) : RegisterResult × List User :=
  match store.find? (fun u => u.email == email) with
  | some u =>
    if u.isVerified then (.alreadyVerified, store)
    else
      let store2 := replaceByEmail email (setVerificationToken freshToken now) store
      if dispatchOk then (.verificationResent freshToken, store2)
      else (.dispatchError, store2)
  | none =>
    let newUser : User :=
      { _id := uid, name := name, email := email,
        password := hashPassword rawPassword, role := role,
        isVerified := false, verificationToken := none,
        verificationTokenExpires := none }
    let saved := (sendVerificationEmail freshToken now newUser).1
    let store2 := store ++ [saved]
    if dispatchOk then (.verificationSent freshToken, store2)
    else (.dispatchError, store2)

/-- Outcome of `forgotPassword` as signalled to the caller. -/
inductive ForgotResult where
  | ack (message : String)
  | dispatchError
deriving DecidableEq, Repr

/-- The one acknowledgement text `forgotPassword` returns on both branches. -/
def genericAckMessage : String :=
  "If a user exists with that email, a reset link has been sent."

/-- `forgotPassword`: an unknown email returns the generic acknowledgement
with no side effect; an existing account gets a fresh token written into
the shared slot and saved, then the reset email is dispatched and the same
generic acknowledgement returned.  A dispatch failure reaches the caller
through `next(err)` after the save has happened. -/
def forgotPassword (email : String) (freshToken : String) (now : Nat)
    (dispatchOk : Bool) (store : List User) : ForgotResult × List User :=
  match store.find? (fun u => u.email == email) with
  | none => (.ack genericAckMessage, store)
  | some _ =>
    let store2 := replaceByEmail email (setVerificationToken freshToken now) store
    if dispatchOk then (.ack genericAckMessage, store2)
    else (.dispatchError, store2)

/-! Helper lemmas about the lookup, save and derivation primitives. -/

theorem hashPassword_inj {a b : String} (h : hashPassword a = hashPassword b) :
    a = b := by
  unfold hashPassword at h
  have hd : ("derived$".data ++ a.data) = ("derived$".data ++ b.data) := by
    have := congrArg String.data h
    simpa using this
  exact String.ext (List.append_cancel_left hd)

theorem tokenMatches_token {t : String} {now : Nat} {u : User}
    (h : tokenMatches t now u = true) : u.verificationToken = some t := by
  unfold tokenMatches at h
  simp only [Bool.and_eq_true] at h
  exact eq_of_beq h.1

theorem tokenMatches_false_of_token_ne {t : String} {now : Nat} {u : User}
    (h : u.verificationToken ≠ some t) : tokenMatches t now u = false := by
  unfold tokenMatches
  simp [beq_eq_false_iff_ne.mpr h]

theorem findAndConsume_eq_none_iff (c : User → User) (t : String) (now : Nat)
    (l : List User) :
    findAndConsume c t now l = none ↔ ∀ u ∈ l, tokenMatches t now u = false := by
  induction l with
  | nil => simp [findAndConsume]
  | cons u rest ih =>
    cases h : tokenMatches t now u with
    | true => simp [findAndConsume, h]
    | false => simp [findAndConsume, h, Option.map_eq_none', ih]

theorem findAndConsume_none_of_no_holder (c : User → User) (t : String)
    (now : Nat) (l : List User)
    (h : ∀ u ∈ l, u.verificationToken ≠ some t) :
    findAndConsume c t now l = none :=
  (findAndConsume_eq_none_iff c t now l).mpr fun u hu =>
    tokenMatches_false_of_token_ne (h u hu)

theorem findAndConsume_eq_some (c : User → User) (t : String) (now : Nat) :
    ∀ (l l2 : List User), findAndConsume c t now l = some l2 →
    ∃ pre u post, l = pre ++ u :: post ∧ tokenMatches t now u = true ∧
      (∀ v ∈ pre, tokenMatches t now v = false) ∧ l2 = pre ++ c u :: post := by
  intro l
  induction l with
  | nil => intro l2 h; simp [findAndConsume] at h
  | cons u rest ih =>
    intro l2 h
    cases hm : tokenMatches t now u with
    | true =>
      refine ⟨[], u, rest, rfl, hm, by simp, ?_⟩
      simp [findAndConsume, hm] at h
      simpa using h.symm
    | false =>
      simp only [findAndConsume, hm, Bool.false_eq_true, if_false,
        Option.map_eq_some'] at h
      obtain ⟨s, hs, hl2⟩ := h
      obtain ⟨pre, w, post, hdec, hw, hpre, hs2⟩ := ih s hs
      refine ⟨u :: pre, w, post, by simp [hdec], hw, ?_, by simp [← hl2, hs2]⟩
      intro v hv
      rcases List.mem_cons.mp hv with rfl | hv2
      · exact hm
      · exact hpre v hv2

theorem find?_replace_decomp (email : String) (f : User → User) :
    ∀ (l : List User) (u : User),
    l.find? (fun v => v.email == email) = some u →
    ∃ pre post, l = pre ++ u :: post ∧
      (∀ v ∈ pre, (v.email == email) = false) ∧
      replaceByEmail email f l = pre ++ f u :: post := by
  intro l
  induction l with
  | nil => intro u h; simp at h
  | cons w rest ih =>
    intro u h
    cases hw : (w.email == email) with
    | true =>
      simp only [List.find?, hw] at h
      obtain rfl : w = u := by simpa using h
      exact ⟨[], rest, rfl, by simp, by simp [replaceByEmail, hw]⟩
    | false =>
      simp only [List.find?, hw] at h
      obtain ⟨pre, post, hdec, hpre, hrep⟩ := ih u h
      refine ⟨w :: pre, post, by simp [hdec], ?_, ?_⟩
      · intro v hv
        rcases List.mem_cons.mp hv with rfl | hv2
        · exact hw
        · exact hpre v hv2
      · simp [replaceByEmail, hw, hrep]

theorem find?_append_first (p : User → Bool) (pre post : List User) (u : User)
    (hpre : ∀ v ∈ pre, p v = false) (hu : p u = true) :
    (pre ++ u :: post).find? p = some u := by
  induction pre with
  | nil => simp [List.find?, hu]
  | cons w rest ih =>
    have hw := hpre w (by simp)
    rw [List.cons_append]
    simp only [List.find?, hw]
    exact ih fun v hv => hpre v (by simp [hv])

theorem countP_decomp_zero (p : User → Bool) (pre post : List User) (u : User)
    (hcount : (pre ++ u :: post).countP p ≤ 1) (hu : p u = true) :
    pre.countP p = 0 ∧ post.countP p = 0 := by
  rw [List.countP_append, List.countP_cons] at hcount
  simp only [hu, if_true] at hcount
  omega

theorem verifyEmail_some_eq (t : String) (now : Nat) (store : List User) :
    verifyEmail (some t) now store =
      match findAndConsume consumeVerify t now store with
      | none => (.invalidOrExpiredToken, store)
      | some store2 => (.verified, store2) := rfl

theorem resetPassword_some_eq (t newPassword : String) (now : Nat)
    (store : List User) :
    resetPassword (some t) newPassword now store =
      match findAndConsume (consumeReset newPassword) t now store with
      | none => (.invalidOrExpiredToken, store)
      | some store2 => (.resetOk, store2) := rfl

/-- A concrete unverified account holding the pending token `tok1` that
expires at instant 1000, used to evaluate the theorems on explicit inputs. -/
def sampleUser : User :=
  { _id := "id1", name := "Alice", email := "alice@example.com",
    password := hashPassword "pw1", role := "student",
    isVerified := false, verificationToken := some "tok1",
    verificationTokenExpires := some 1000 }

/-- A concrete verified account with no pending token, used to evaluate the
theorems on explicit inputs. -/
def sampleVerified : User :=
  { _id := "id2", name := "Bob", email := "bob@example.com",
    password := hashPassword "pw2", role := "admin",
    isVerified := true, verificationToken := none,
    verificationTokenExpires := none }

/-- A concrete verified account holding the pending reset token `tokR`
that expires at instant 500, used to evaluate the theorems on explicit
inputs. -/
def sampleResetUser : User :=
  { _id := "id3", name := "Carol", email := "carol@example.com",
    password := hashPassword "oldPw", role := "student",
    isVerified := true, verificationToken := some "tokR",
    verificationTokenExpires := some 500 }

/-- C1: `verifyEmail` succeeds exactly when some stored account's pending
token equals the submitted token and its expiry is strictly in the future;
on success the matched account is marked verified and both token fields are
cleared in the one saved update; on no match — wrong token or expired token
alike — the caller gets the single `invalidOrExpiredToken` signal and the
store is unchanged, so the two failure sub-cases are indistinguishable. -/
theorem C1_verifyEmail_spec (t : String) (now : Nat) (store : List User) :
    ((verifyEmail (some t) now store).1 = .verified ↔
      ∃ u ∈ store, tokenMatches t now u = true) ∧
    ((∀ u ∈ store, tokenMatches t now u = false) →
      verifyEmail (some t) now store = (.invalidOrExpiredToken, store)) ∧
    (∀ s2, verifyEmail (some t) now store = (.verified, s2) →
      ∃ pre u post, store = pre ++ u :: post ∧ tokenMatches t now u = true ∧
        (∀ v ∈ pre, tokenMatches t now v = false) ∧
        s2 = pre ++ consumeVerify u :: post ∧
        (consumeVerify u).isVerified = true ∧
        (consumeVerify u).verificationToken = none ∧
        (consumeVerify u).verificationTokenExpires = none) := by
  refine ⟨?_, ?_, ?_⟩
  · rw [verifyEmail_some_eq]
    cases h : findAndConsume consumeVerify t now store with
    | none =>
      constructor
      · intro hc; exact absurd hc (by simp)
      · rintro ⟨u, hu, hm⟩
        have := (findAndConsume_eq_none_iff _ _ _ _).mp h u hu
        rw [this] at hm; exact absurd hm (by simp)
    | some s2 =>
      constructor
      · intro _
        obtain ⟨pre, u, post, hdec, hm, _, _⟩ :=
          findAndConsume_eq_some _ _ _ _ _ h
        exact ⟨u, by simp [hdec], hm⟩
      · intro _; rfl
  · intro hnone
    rw [verifyEmail_some_eq,
      (findAndConsume_eq_none_iff _ _ _ _).mpr hnone]
  · intro s2 h
    rw [verifyEmail_some_eq] at h
    cases hf : findAndConsume consumeVerify t now store with
    | none => rw [hf] at h; exact absurd h (by simp)
    | some s3 =>
      rw [hf] at h
      obtain rfl : s3 = s2 := by simpa using h
      obtain ⟨pre, u, post, hdec, hm, hpre, hs2⟩ :=
        findAndConsume_eq_some _ _ _ _ _ hf
      exact ⟨pre, u, post, hdec, hm, hpre, hs2, rfl, rfl, rfl⟩

/-- Witness for C1 on a concrete store: verifying `tok1` at instant 0
against the single-account store succeeds and yields the decomposed,
cleared state. -/
theorem C1_verifyEmail_spec_witness :
    ∃ pre u post, [sampleUser] = pre ++ u :: post ∧
      tokenMatches "tok1" 0 u = true ∧
      (∀ v ∈ pre, tokenMatches "tok1" 0 v = false) ∧
      [consumeVerify sampleUser] = pre ++ consumeVerify u :: post ∧
      (consumeVerify u).isVerified = true ∧
      (consumeVerify u).verificationToken = none ∧
      (consumeVerify u).verificationTokenExpires = none :=
  (C1_verifyEmail_spec "tok1" 0 [sampleUser]).2.2
    [consumeVerify sampleUser] (by decide)

theorem verifyEmail_eq_verified_inv {t : String} {now : Nat}
    {store s2 : List User}
    (h : verifyEmail (some t) now store = (.verified, s2)) :
    findAndConsume consumeVerify t now store = some s2 := by
  rw [verifyEmail_some_eq] at h
  cases hf : findAndConsume consumeVerify t now store with
  | none => rw [hf] at h; exact absurd h (by simp)
  | some s3 =>
    rw [hf] at h
    obtain rfl : s3 = s2 := by simpa using h
    rfl

theorem resetPassword_eq_resetOk_inv {t pass : String} {now : Nat}
    {store s2 : List User}
    (h : resetPassword (some t) pass now store = (.resetOk, s2)) :
    findAndConsume (consumeReset pass) t now store = some s2 := by
  rw [resetPassword_some_eq] at h
  cases hf : findAndConsume (consumeReset pass) t now store with
  | none => rw [hf] at h; exact absurd h (by simp)
  | some s3 =>
    rw [hf] at h
    obtain rfl : s3 = s2 := by simpa using h
    rfl

theorem consumed_no_holder (c : User → User) (t : String) (now : Nat)
    (store s2 : List User)
    (hc : ∀ u, (c u).verificationToken = none)
    (huniq : store.countP (fun v => v.verificationToken == some t) ≤ 1)
    (h : findAndConsume c t now store = some s2) :
    ∀ w ∈ s2, w.verificationToken ≠ some t := by
  obtain ⟨pre, u, post, hdec, hm, _, hs2⟩ :=
    findAndConsume_eq_some _ _ _ _ _ h
  subst hdec
  have hu : (fun v => v.verificationToken == some t) u = true := by
    simp [tokenMatches_token hm]
  obtain ⟨hp0, hq0⟩ := countP_decomp_zero _ pre post u huniq hu
  intro w hw
  rw [hs2] at hw
  rcases List.mem_append.mp hw with hw2 | hw2
  · intro hcon
    have := List.countP_eq_zero.mp hp0 w hw2
    simp [hcon] at this
  · rcases List.mem_cons.mp hw2 with rfl | hw3
    · simp [hc u]
    · intro hcon
      have := List.countP_eq_zero.mp hq0 w hw3
      simp [hcon] at this

theorem verifyEmail_fails_of_no_holder (t : String) (now : Nat)
    (store : List User) (h : ∀ w ∈ store, w.verificationToken ≠ some t) :
    verifyEmail (some t) now store = (.invalidOrExpiredToken, store) := by
  rw [verifyEmail_some_eq, findAndConsume_none_of_no_holder _ _ _ _ h]

theorem resetPassword_fails_of_no_holder (t pass : String) (now : Nat)
    (store : List User) (h : ∀ w ∈ store, w.verificationToken ≠ some t) :
    resetPassword (some t) pass now store = (.invalidOrExpiredToken, store) := by
  rw [resetPassword_some_eq, findAndConsume_none_of_no_holder _ _ _ _ h]

/-- C2: tokens are single-use.  When at most one stored account holds the
token `t`, a successful consumption by `verifyEmail` or by `resetPassword`
clears both token fields in the same saved update, and submitting `t` a
second time to either operation — at any later instant — fails with the
`invalidOrExpiredToken` signal. -/
theorem C2_token_single_use (t : String) (now : Nat) (store : List User)
    (huniq : store.countP (fun v => v.verificationToken == some t) ≤ 1) :
    (∀ s2, verifyEmail (some t) now store = (.verified, s2) →
      ∀ now2 pass,
        (verifyEmail (some t) now2 s2).1 = .invalidOrExpiredToken ∧
        (resetPassword (some t) pass now2 s2).1 = .invalidOrExpiredToken) ∧
    (∀ pass s2, resetPassword (some t) pass now store = (.resetOk, s2) →
      ∀ now2 pass2,
        (verifyEmail (some t) now2 s2).1 = .invalidOrExpiredToken ∧
        (resetPassword (some t) pass2 now2 s2).1 = .invalidOrExpiredToken) ∧
    (∀ pass s2, resetPassword (some t) pass now store = (.resetOk, s2) →
      ∃ pre u post, store = pre ++ u :: post ∧
        s2 = pre ++ consumeReset pass u :: post ∧
        (consumeReset pass u).verificationToken = none ∧
        (consumeReset pass u).verificationTokenExpires = none) := by
  refine ⟨?_, ?_, ?_⟩
  · intro s2 h now2 pass
    have hno := consumed_no_holder consumeVerify t now store s2
      (fun u => rfl) huniq (verifyEmail_eq_verified_inv h)
    exact ⟨by rw [verifyEmail_fails_of_no_holder t now2 s2 hno],
      by rw [resetPassword_fails_of_no_holder t pass now2 s2 hno]⟩
  · intro pass s2 h now2 pass2
    have hno := consumed_no_holder (consumeReset pass) t now store s2
      (fun u => rfl) huniq (resetPassword_eq_resetOk_inv h)
    exact ⟨by rw [verifyEmail_fails_of_no_holder t now2 s2 hno],
      by rw [resetPassword_fails_of_no_holder t pass2 now2 s2 hno]⟩
  · intro pass s2 h
    obtain ⟨pre, u, post, hdec, _, _, hs2⟩ :=
      findAndConsume_eq_some _ _ _ _ _ (resetPassword_eq_resetOk_inv h)
    exact ⟨pre, u, post, hdec, hs2, rfl, rfl⟩

/-- Witness for C2 on a concrete store: after `tok1` verifies the sample
account, re-submitting `tok1` to either operation later fails. -/
theorem C2_token_single_use_witness :
    (verifyEmail (some "tok1") 5 [consumeVerify sampleUser]).1 =
      .invalidOrExpiredToken ∧
    (resetPassword (some "tok1") "newPw" 5 [consumeVerify sampleUser]).1 =
      .invalidOrExpiredToken :=
  (C2_token_single_use "tok1" 0 [sampleUser] (by decide)).1
    [consumeVerify sampleUser] (by decide) 5 "newPw"

/-- C7: `forgotPassword` returns the one generic acknowledgement for every
store and every email, whether or not an account exists for it, giving the
caller no signal of account existence. -/
theorem C7_forgot_uniform_ack (email freshToken : String) (now : Nat)
    (store : List User) :
    (forgotPassword email freshToken now true store).1 =
      .ack genericAckMessage := by
  unfold forgotPassword
  cases store.find? (fun u => u.email == email) with
  | none => rfl
  | some u => rfl

/-- C3: `loginUser` signals `emailNotVerified` whenever the account found
by email is unverified, signals the one shared `invalidCredentials` both
when no account exists and when a verified account's password comparison
fails, and a session credential is only ever issued to a verified
account. -/
theorem C3_login_gate (email pass : String) (store : List User) :
    (store.find? (fun u => u.email == email) = none →
      loginUser email pass store = .invalidCredentials) ∧
    (∀ u, store.find? (fun v => v.email == email) = some u →
      u.isVerified = false → loginUser email pass store = .emailNotVerified) ∧
    (∀ u, store.find? (fun v => v.email == email) = some u →
      u.isVerified = true → comparePassword u pass = false →
      loginUser email pass store = .invalidCredentials) ∧
    (∀ j, loginUser email pass store = .success j →
      ∃ u, store.find? (fun v => v.email == email) = some u ∧
        u.isVerified = true) := by
  refine ⟨?_, ?_, ?_, ?_⟩
  · intro h; unfold loginUser; simp [h]
  · intro u h hv; unfold loginUser; simp [h, hv]
  · intro u h hv hc; unfold loginUser; simp [h, hv, hc]
  · intro j h
    unfold loginUser at h
    cases hf : store.find? (fun v => v.email == email) with
    | none => rw [hf] at h; exact absurd h (by simp)
    | some u =>
      rw [hf] at h
      refine ⟨u, rfl, ?_⟩
      cases hv : u.isVerified with
      | false => simp [hv] at h
      | true => rfl

/-- Witness for C3 on a concrete store: the unverified sample account is
rejected with `emailNotVerified`, and an unknown email with
`invalidCredentials`. -/
theorem C3_login_gate_witness :
    loginUser "alice@example.com" "pw1" [sampleUser] = .emailNotVerified ∧
    loginUser "nobody@example.com" "pw1" [sampleUser] = .invalidCredentials :=
  ⟨(C3_login_gate "alice@example.com" "pw1" [sampleUser]).2.1 sampleUser
      (by decide) (by decide),
    (C3_login_gate "nobody@example.com" "pw1" [sampleUser]).1 (by decide)⟩

/-- C4: for a verified account found by email, `loginUser` with the correct
password succeeds with a signed credential whose embedded claims are the
account's unique id and role, valid for the fixed window of 1 day. -/
theorem C4_login_success (email pass : String) (store : List User) (u : User)
    (hf : store.find? (fun v => v.email == email) = some u)
    (hv : u.isVerified = true)
    (hc : comparePassword u pass = true) :
    loginUser email pass store = .success (jwtSign u._id u.role) ∧
    (jwtSign u._id u.role).userId = u._id ∧
    (jwtSign u._id u.role).role = u.role ∧
    (jwtSign u._id u.role).expiresInMs = 24 * 60 * 60 * 1000 := by
  refine ⟨?_, rfl, rfl, rfl⟩
  unfold loginUser
  simp [hf, hv, hc]

/-- Witness for C4 on a concrete store: the verified sample account logs in
with its password and receives the credential over its id and role. -/
theorem C4_login_success_witness :
    loginUser "bob@example.com" "pw2" [sampleVerified] =
      .success (jwtSign sampleVerified._id sampleVerified.role) ∧
    (jwtSign sampleVerified._id sampleVerified.role).userId =
      sampleVerified._id ∧
    (jwtSign sampleVerified._id sampleVerified.role).role =
      sampleVerified.role ∧
    (jwtSign sampleVerified._id sampleVerified.role).expiresInMs =
      24 * 60 * 60 * 1000 :=
  C4_login_success "bob@example.com" "pw2" [sampleVerified] sampleVerified
    (by decide) (by decide) (by decide)

theorem replaceByEmail_append (email : String) (f : User → User)
    (pre post : List User) (u : User)
    (hpre : ∀ v ∈ pre, (v.email == email) = false)
    (hu : (u.email == email) = true) :
    replaceByEmail email f (pre ++ u :: post) = pre ++ f u :: post := by
  induction pre with
  | nil => simp [replaceByEmail, hu]
  | cons w rest ih =>
    have hw := hpre w (by simp)
    simp [replaceByEmail, hw, ih fun v hv => hpre v (by simp [hv])]

theorem findAndConsume_append (c : User → User) (t : String) (now : Nat)
    (pre post : List User) (u : User)
    (hpre : ∀ v ∈ pre, tokenMatches t now v = false)
    (hu : tokenMatches t now u = true) :
    findAndConsume c t now (pre ++ u :: post) = some (pre ++ c u :: post) := by
  induction pre with
  | nil => simp [findAndConsume, hu]
  | cons w rest ih =>
    have hw := hpre w (by simp)
    simp [findAndConsume, hw, ih fun v hv => hpre v (by simp [hv])]

theorem no_holder_of_counts (pre post : List User) (u2 : User) (t : String)
    (hp0 : pre.countP (fun v => v.verificationToken == some t) = 0)
    (hq0 : post.countP (fun v => v.verificationToken == some t) = 0)
    (hu2 : u2.verificationToken ≠ some t) :
    ∀ w ∈ pre ++ u2 :: post, w.verificationToken ≠ some t := by
  intro w hw
  rcases List.mem_append.mp hw with hw2 | hw2
  · intro hcon
    have := List.countP_eq_zero.mp hp0 w hw2
    simp [hcon] at this
  · rcases List.mem_cons.mp hw2 with rfl | hw3
    · exact hu2
    · intro hcon
      have := List.countP_eq_zero.mp hq0 w hw3
      simp [hcon] at this

/-- C5: `registerUser` by cases on the stored state.  A previously-unseen
email gets a new account, unverified, whose first save already carries the
fresh token and expiry, with the sent acknowledgement; an existing verified
account is rejected with the already-verified signal and the store is
untouched; an existing unverified account has the fresh token overwrite its
slot with the resent acknowledgement, after which the prior token — if it
was the only copy in the store and differs from the fresh one — no longer
verifies at any instant. -/
theorem C5_register_cases (name email rawPassword role uid freshToken : String)
    (now : Nat) (store : List User) :
    (store.find? (fun v => v.email == email) = none →
      ∃ nu, registerUser name email rawPassword role uid freshToken now true
          store = (.verificationSent freshToken, store ++ [nu]) ∧
        nu.isVerified = false ∧ nu.email = email ∧
        nu.password = hashPassword rawPassword ∧
        nu.verificationToken = some freshToken ∧
        nu.verificationTokenExpires = some (now + TOKEN_EXPIRATION_MS)) ∧
    (∀ u, store.find? (fun v => v.email == email) = some u →
      u.isVerified = true →
      registerUser name email rawPassword role uid freshToken now true store =
        (.alreadyVerified, store)) ∧
    (∀ u, store.find? (fun v => v.email == email) = some u →
      u.isVerified = false →
      ∃ pre post, store = pre ++ u :: post ∧
        registerUser name email rawPassword role uid freshToken now true
          store = (.verificationResent freshToken,
            pre ++ setVerificationToken freshToken now u :: post) ∧
        (setVerificationToken freshToken now u).verificationToken =
          some freshToken ∧
        (∀ oldTok, u.verificationToken = some oldTok → oldTok ≠ freshToken →
          store.countP (fun v => v.verificationToken == some oldTok) ≤ 1 →
          ∀ now2, (verifyEmail (some oldTok) now2
              (pre ++ setVerificationToken freshToken now u :: post)).1 =
            .invalidOrExpiredToken)) := by
  refine ⟨?_, ?_, ?_⟩
  · intro h
    refine ⟨setVerificationToken freshToken now
      { _id := uid, name := name, email := email,
        password := hashPassword rawPassword, role := role,
        isVerified := false, verificationToken := none,
        verificationTokenExpires := none }, ?_, rfl, rfl, rfl, rfl, rfl⟩
    unfold registerUser
    rw [h]
    rfl
  · intro u h hv
    unfold registerUser
    rw [h]
    simp [hv]
  · intro u h hv
    obtain ⟨pre, post, hdec, hpre, hrep⟩ :=
      find?_replace_decomp email (setVerificationToken freshToken now) store u h
    refine ⟨pre, post, hdec, ?_, rfl, ?_⟩
    · unfold registerUser
      rw [h, hrep]
      simp [hv]
    · intro oldTok hold hne hcount now2
      rw [hdec] at hcount
      obtain ⟨hp0, hq0⟩ := countP_decomp_zero _ pre post u hcount (by simp [hold])
      have hno := no_holder_of_counts pre post
        (setVerificationToken freshToken now u) oldTok hp0 hq0
        (by simp [setVerificationToken]; exact fun hcon => hne hcon.symm)
      rw [verifyEmail_fails_of_no_holder _ _ _ hno]

/-- Witness for C5 on a concrete store: registering an unseen email against
the empty store creates an unverified account carrying the fresh token. -/
theorem C5_register_cases_witness :
    ∃ nu, registerUser "Alice" "alice@example.com" "pw1" "student" "id9"
        "tokR" 0 true [] = (.verificationSent "tokR", [] ++ [nu]) ∧
      nu.isVerified = false ∧ nu.email = "alice@example.com" ∧
      nu.password = hashPassword "pw1" ∧
      nu.verificationToken = some "tokR" ∧
      nu.verificationTokenExpires = some (0 + TOKEN_EXPIRATION_MS) :=
  (C5_register_cases "Alice" "alice@example.com" "pw1" "student" "id9"
    "tokR" 0 []).1 (by decide)

/-- C6: in `registerUser`, the fresh token is persisted before the
notification is dispatched: the saved store is the same whether dispatch
succeeds or fails, the token held by the saved document equals the token
embedded in the email link it would dispatch, and a dispatch failure on
either sending branch surfaces to the caller as the recoverable
`dispatchError` outcome. -/
theorem C6_register_dispatch_ordering
    (name email rawPassword role uid freshToken : String) (now : Nat)
    (store : List User) :
    ((registerUser name email rawPassword role uid freshToken now false
        store).2 =
      (registerUser name email rawPassword role uid freshToken now true
        store).2) ∧
    (∀ u : User, ((sendVerificationEmail freshToken now u).1).verificationToken
      = some ((sendVerificationEmail freshToken now u).2).linkToken) ∧
    (store.find? (fun v => v.email == email) = none →
      (registerUser name email rawPassword role uid freshToken now false
        store).1 = .dispatchError) ∧
    (∀ u, store.find? (fun v => v.email == email) = some u →
      u.isVerified = false →
      (registerUser name email rawPassword role uid freshToken now false
        store).1 = .dispatchError) := by
  refine ⟨?_, fun u => rfl, ?_, ?_⟩
  · unfold registerUser
    cases hf : store.find? (fun v => v.email == email) with
    | none => rfl
    | some u => cases hv : u.isVerified <;> simp [hv]
  · intro h
    unfold registerUser
    rw [h]
    rfl
  · intro u h hv
    unfold registerUser
    rw [h]
    simp [hv]

/-- Witness for C6 on a concrete store: when dispatch fails while
registering an unseen email, the caller sees the recoverable error and the
store still took the save. -/
theorem C6_register_dispatch_ordering_witness :
    (registerUser "Alice" "alice@example.com" "pw1" "student" "id9" "tokR" 0
      false []).1 = .dispatchError :=
  (C6_register_dispatch_ordering "Alice" "alice@example.com" "pw1" "student"
    "id9" "tokR" 0 []).2.2.1 (by decide)

/-- C9: at most one token is outstanding per account.  For the first
account stored under its email — verified or not — `forgotPassword` writes
the fresh token into the one shared slot, overwriting it, and a
re-register does the same whenever the account is unverified (the
pending-account branch the claim names); when the overwritten token was
the only copy in the store and differs from the fresh one, it is
afterwards rejected by both `verifyEmail` and `resetPassword` at every
instant — so a reset request invalidates an outstanding verification or
reset token and vice versa. -/
theorem C9_single_token_slot (freshTok oldTok : String) (now now2 : Nat)
    (pre post : List User) (u : User) (dispatchOk : Bool)
    (name rawPassword role uid pass : String)
    (hpre : ∀ v ∈ pre, (v.email == u.email) = false)
    (hold : u.verificationToken = some oldTok)
    (hne : oldTok ≠ freshTok)
    (hcount : (pre ++ u :: post).countP
      (fun v => v.verificationToken == some oldTok) ≤ 1) :
    ((forgotPassword u.email freshTok now dispatchOk (pre ++ u :: post)).2 =
      pre ++ setVerificationToken freshTok now u :: post) ∧
    (u.isVerified = false →
      (registerUser name u.email rawPassword role uid freshTok now dispatchOk
          (pre ++ u :: post)).2 =
        pre ++ setVerificationToken freshTok now u :: post) ∧
    (setVerificationToken freshTok now u).verificationToken =
      some freshTok ∧
    ((verifyEmail (some oldTok) now2
        (pre ++ setVerificationToken freshTok now u :: post)).1 =
      .invalidOrExpiredToken) ∧
    ((resetPassword (some oldTok) pass now2
        (pre ++ setVerificationToken freshTok now u :: post)).1 =
      .invalidOrExpiredToken) := by
  have hfind := find?_append_first (fun v => v.email == u.email) pre post u
    hpre (by simp)
  have hrep := replaceByEmail_append u.email
    (setVerificationToken freshTok now) pre post u hpre (by simp)
  obtain ⟨hp0, hq0⟩ :=
    countP_decomp_zero _ pre post u hcount (by simp [hold])
  have hno := no_holder_of_counts pre post
    (setVerificationToken freshTok now u) oldTok hp0 hq0
    (by simp [setVerificationToken]; exact fun hcon => hne hcon.symm)
  refine ⟨?_, ?_, rfl, ?_, ?_⟩
  · unfold forgotPassword
    rw [hfind, hrep]
    cases dispatchOk <;> rfl
  · intro hver
    unfold registerUser
    rw [hfind, hrep]
    simp [hver]
    cases dispatchOk <;> rfl
  · rw [verifyEmail_fails_of_no_holder _ _ _ hno]
  · rw [resetPassword_fails_of_no_holder _ _ _ _ hno]

/-- Witness for C9 on a concrete store: a second forgot-password request
for the verified sample reset account overwrites its outstanding `tokR`
with `tok2`, after which `tokR` is rejected by both consuming
operations. -/
theorem C9_single_token_slot_witness :
    ((forgotPassword sampleResetUser.email "tok2" 0 true
        [sampleResetUser]).2 =
      [] ++ setVerificationToken "tok2" 0 sampleResetUser :: []) ∧
    (sampleResetUser.isVerified = false →
      (registerUser "Carol" sampleResetUser.email "pw1" "student" "id9"
          "tok2" 0 true [sampleResetUser]).2 =
        [] ++ setVerificationToken "tok2" 0 sampleResetUser :: []) ∧
    (setVerificationToken "tok2" 0 sampleResetUser).verificationToken =
      some "tok2" ∧
    ((verifyEmail (some "tokR") 7
        ([] ++ setVerificationToken "tok2" 0 sampleResetUser :: [])).1 =
      .invalidOrExpiredToken) ∧
    ((resetPassword (some "tokR") "pw9" 7
        ([] ++ setVerificationToken "tok2" 0 sampleResetUser :: [])).1 =
      .invalidOrExpiredToken) :=
  C9_single_token_slot "tok2" "tokR" 0 7 [] [] sampleResetUser true
    "Carol" "pw1" "student" "id9" "pw9" (by decide) (by decide) (by decide)
    (by decide)

/-- Counterexample to C8 as stated: `resetPassword` does not require the
account to be verified and `forgotPassword` hands reset tokens to
unverified accounts, while `loginUser` rejects unverified accounts before
checking the password.  For the unverified sample account holding the
valid unexpired token `tok1`, the reset succeeds but the following login
with the new password returns `emailNotVerified`, not a success. -/
theorem C8_counterexample_unverified_reset :
    (resetPassword (some "tok1") "newPw" 0 [sampleUser]).1 = .resetOk ∧
    loginUser "alice@example.com" "newPw"
      (resetPassword (some "tok1") "newPw" 0 [sampleUser]).2 =
      .emailNotVerified := by
  decide

/-- C8 amended: for a verified account holding a valid unexpired reset
token — stored as the first entry for its email, with no earlier token
match — resetting to a password different from the old one lets the
account log in with the new password, and logging in with the old password
afterwards fails with `invalidCredentials`. -/
theorem C8_reset_then_login (pre post : List User) (u : User)
    (t newPass oldPass : String) (now : Nat)
    (hpreEmail : ∀ v ∈ pre, (v.email == u.email) = false)
    (hpreTok : ∀ v ∈ pre, tokenMatches t now v = false)
    (hmatch : tokenMatches t now u = true)
    (hver : u.isVerified = true)
    (hold : u.password = hashPassword oldPass)
    (hne : newPass ≠ oldPass) :
    (resetPassword (some t) newPass now (pre ++ u :: post)).1 = .resetOk ∧
    loginUser u.email newPass
      (resetPassword (some t) newPass now (pre ++ u :: post)).2 =
      .success (jwtSign u._id u.role) ∧
    loginUser u.email oldPass
      (resetPassword (some t) newPass now (pre ++ u :: post)).2 =
      .invalidCredentials := by
  have hfc := findAndConsume_append (consumeReset newPass) t now pre post u
    hpreTok hmatch
  have hs2 : (resetPassword (some t) newPass now (pre ++ u :: post)).2 =
      pre ++ consumeReset newPass u :: post := by
    rw [resetPassword_some_eq, hfc]
  have hr1 : (resetPassword (some t) newPass now (pre ++ u :: post)).1 =
      .resetOk := by
    rw [resetPassword_some_eq, hfc]
  have hfind := find?_append_first (fun v => v.email == u.email) pre post
    (consumeReset newPass u) hpreEmail (by simp [consumeReset])
  have hv2 : (consumeReset newPass u).isVerified = true := hver
  refine ⟨hr1, ?_, ?_⟩
  · rw [hs2]
    unfold loginUser
    rw [hfind]
    have hcmp : comparePassword (consumeReset newPass u) newPass = true := by
      simp [comparePassword, consumeReset]
    simp only [hv2, hcmp, Bool.not_true]
    simp [consumeReset]
  · rw [hs2]
    unfold loginUser
    rw [hfind]
    have hcmp : comparePassword (consumeReset newPass u) oldPass = false := by
      simp only [comparePassword, consumeReset]
      exact beq_eq_false_iff_ne.mpr fun hcon => hne (hashPassword_inj hcon)
    simp only [hv2, hcmp, Bool.not_true]
    simp

/-- Witness for the amended C8 on a concrete store: the verified sample
reset account changes its password via `tokR` and afterwards logs in only
with the new password. -/
theorem C8_reset_then_login_witness :
    (resetPassword (some "tokR") "newPw" 0 [sampleResetUser]).1 = .resetOk ∧
    loginUser sampleResetUser.email "newPw"
      (resetPassword (some "tokR") "newPw" 0 [sampleResetUser]).2 =
      .success (jwtSign sampleResetUser._id sampleResetUser.role) ∧
    loginUser sampleResetUser.email "oldPw"
      (resetPassword (some "tokR") "newPw" 0 [sampleResetUser]).2 =
      .invalidCredentials :=
  C8_reset_then_login [] [] sampleResetUser "tokR" "newPw" "oldPw" 0
    (by decide) (by decide) (by decide) (by decide) (by decide) (by decide)

/-- C10: a missing token query parameter makes `verifyEmail` and
`resetPassword` each return their token-is-missing error — a signal
distinct from `invalidOrExpiredToken` — with the store untouched, before
any account is consulted. -/
theorem C10_missing_token (now : Nat) (pass : String) (store : List User) :
    verifyEmail none now store = (.missingToken, store) ∧
    resetPassword none pass now store = (.missingToken, store) ∧
    VerifyResult.missingToken ≠ VerifyResult.invalidOrExpiredToken ∧
    ResetResult.missingToken ≠ ResetResult.invalidOrExpiredToken :=
  ⟨rfl, rfl, by simp, by simp⟩

end Auth
